import Mathlib

/-!
Verification of the DAG layout / connectivity / scene-construction logic of
`seatunnel-engine-ui` (`src/components/directed-acyclic-graph/index.tsx`) and
the metrics-cell aggregation of `src/views/jobs/detail.tsx`, as a shallow
embedding in Lean.

Conventions of the embedding:
* JavaScript objects whose fields may be `undefined` become structures with
  `Option` fields.
* A JavaScript object used as a string-keyed map (`pipelineEdges`, `metrics`)
  becomes an association list `List (String × _)`; the list order models the
  `Object.keys` enumeration order.
* Code that can throw a `TypeError` (property access on `undefined`) returns
  `Except Unit _`, with `.error ()` standing for the thrown exception.
* JavaScript numbers that can be `NaN` (from `Number(undefined)`) become
  `JsNum`; integer metric values are modelled as `Int`.
-/

/-- Vertex of the job DAG (`Vertex` in `@/service/job/types`): integer id,
display name, type string (`source` / `sink` / `transform` / other) and the
table paths used as metric lookup keys. -/
structure Vertex where
  vertexId : Int
  vertexName : String
  vtype : String
  tablePaths : List String
deriving Repr, DecidableEq

/-- Directed edge of a pipeline: both endpoint ids are string-encoded. -/
structure Edge where
  inputVertexId : String
  targetVertexId : String
deriving Repr, DecidableEq

/-- The `pipelineEdges` object: pipeline key → list of edges. -/
abbrev PipelineEdges := List (String × List Edge)

/-- The `jobDag` object; both fields may be absent in a partially loaded job. -/
structure JobDag where
  vertexInfoMap : Option (List Vertex)
  pipelineEdges : Option PipelineEdges
deriving Repr, DecidableEq

/-- Metrics snapshot: metric name → (table path → numeric value). -/
abbrev Metrics := List (String × List (String × Int))

/-- The parts of a `Job` the verified computations read.  A pending or failed
fetch leaves the job as an empty object, i.e. every field `none`. -/
structure Job where
  jobDag : Option JobDag
  jobStatus : Option String
  metrics : Option Metrics
deriving Repr, DecidableEq

/-- Association-list lookup, modelling JavaScript property access `m[k]`
(`none` = `undefined`). -/
def lookupStr {β : Type} : List (String × β) → String → Option β
  | [], _ => none
  | (k2, v) :: rest, k => if k2 = k then some v else lookupStr rest k

/-- One edge test of `isConnected`:
`inputVertexId === String(source.vertexId) && targetVertexId === String(target.vertexId)`. -/
def edgeMatches (e : Edge) (source target : Vertex) : Bool :=
  e.inputVertexId == toString source.vertexId &&
    e.targetVertexId == toString target.vertexId

/-- `isConnected` over an already-read edge map (the body of the double
`for` loop; `List.any` short-circuits at the first match exactly like the
early `return true`). -/
def scanPipelines (edgeMap : PipelineEdges) (source target : Vertex) : Bool :=
  edgeMap.any fun kes => kes.2.any fun e => edgeMatches e source target

/-- `isConnected` of `index.tsx` for a present `jobDag`:
`const edgeMap = props?.job.jobDag.pipelineEdges || {}` followed by the scan;
an absent `pipelineEdges` is replaced by the empty object. -/
def isConnected (pipelineEdges : Option PipelineEdges) (source target : Vertex) : Bool :=
  scanPipelines (pipelineEdges.getD []) source target

/-- A vertex as placed into the layout matrix.  The source mutates
`point.next`; the only observable use of `next` is whether it is nonempty
(`prevous.next.length`), so the embedding records that Boolean. -/
structure PlacedPoint where
  vertex : Vertex
  nextNonempty : Bool
deriving Repr, DecidableEq

/-- The layout grid (`matrix` in `init`): rows of placed vertices. -/
abbrev LayoutGrid := List (List PlacedPoint)

/-- Row-then-column scan of `findPrevious`, carrying the current row index. -/
def findPreviousAux (isConn : Vertex → Vertex → Bool) :
    LayoutGrid → Vertex → Nat → Option (Nat × Nat)
  | [], _, _ => none
  | row :: rest, item, r =>
    match row.findIdx? (fun cell => isConn cell.vertex item) with
    | some c => some (r, c)
    | none => findPreviousAux isConn rest item (r + 1)

/-- `findPrevious` of `init`: the first already-placed vertex (row-then-column
order) connected to `item`, as a (row, column) position. -/
def findPrevious (isConn : Vertex → Vertex → Bool) (m : LayoutGrid) (item : Vertex) :
    Option (Nat × Nat) :=
  findPreviousAux isConn m item 0

/-- One iteration of the `points.forEach` placement loop of `init`:
no predecessor → new singleton row; predecessor with nonempty `next` →
new singleton row (fan-out); predecessor with empty `next` → mark the
predecessor's `next` nonempty and append the vertex to its row. -/
def placePoint (isConn : Vertex → Vertex → Bool) (m : LayoutGrid) (item : Vertex) : LayoutGrid :=
  match findPrevious isConn m item with
  | none => m ++ [[⟨item, false⟩]]
  | some (r, c) =>
    if ((m.getD r []).getD c ⟨item, false⟩).nextNonempty then
      m ++ [[⟨item, false⟩]]
    else
      m.set r
        (((m.getD r []).set c ⟨((m.getD r []).getD c ⟨item, false⟩).vertex, true⟩)
          ++ [⟨item, false⟩])

/-- The whole placement loop: fold `placePoint` over the vertices in input
order, starting from the empty matrix. -/
def buildMatrix (isConn : Vertex → Vertex → Bool) (points : List Vertex) : LayoutGrid :=
  points.foldl (placePoint isConn) []

/-- Forget the `next` flags, keeping only the grid of vertices. -/
def matrixVertices (m : LayoutGrid) : List (List Vertex) :=
  m.map (fun row => row.map PlacedPoint.vertex)

/-- Connection port of a node (`Port` in `init`): id and group
(`left` or `right`). -/
structure Port where
  pid : String
  group : String
deriving Repr, DecidableEq

/-- Drawable node descriptor (`Cell.Metadata` of shape `dag-node`): id,
pixel position, payload data (vertex id, label, status) and ports. -/
structure NodeItem where
  nid : String
  x : Nat
  y : Nat
  dataId : Int
  label : String
  status : String
  ports : List Port
deriving Repr, DecidableEq

/-- Drawable edge descriptor (`Cell.Metadata` of shape `dag-edge`): id,
source / target cell and port references, draw order. -/
structure EdgeItem where
  eid : String
  sourceCell : String
  sourcePort : String
  targetCell : String
  targetPort : String
  zIndex : Nat
deriving Repr, DecidableEq

/-- An entry of the `items` array built by `init`: either a node or an edge
descriptor (the `shape` discriminator becomes the constructor). -/
inductive SceneItem where
  | node : NodeItem → SceneItem
  | edge : EdgeItem → SceneItem
deriving Repr, DecidableEq

/-- Horizontal node spacing in `init`: `offsetX = nodeWidth + 240` with
`nodeWidth = 300`. -/
def offsetX : Nat := 540

/-- Vertical node spacing in `init`: `offsetY = 140`. -/
def offsetY : Nat := 140

/-- Port list of one node: a `left` port unless the column is 0, then a
`right` port unless the column is the last of its row (`row.length - 1`). -/
def nodePorts (nid : String) (colNumber rowLen : Nat) : List Port :=
  (if colNumber ≠ 0 then [⟨nid ++ "-left", "left"⟩] else []) ++
    (if colNumber ≠ rowLen - 1 then [⟨nid ++ "-right", "right"⟩] else [])

/-- Node descriptor for the cell at (rowNumber, colNumber) of a row of length
`rowLen`, as pushed by the `matrix.forEach` loop of `init`. -/
def mkNodeItem (v : Vertex) (status : String) (colNumber rowNumber rowLen : Nat) :
    NodeItem :=
  { nid := "node-" ++ toString v.vertexId
    x := colNumber * offsetX
    y := rowNumber * offsetY
    dataId := v.vertexId
    label := v.vertexName
    status := status
    ports := nodePorts ("node-" ++ toString v.vertexId) colNumber rowLen }

/-- Inner `row.forEach` of the node-building loop, carrying the column index
and the row length. -/
def buildNodesRow (status : String) (rowNumber : Nat) (rowLen : Nat) :
    List PlacedPoint → Nat → List SceneItem
  | [], _ => []
  | cell :: rest, colNumber =>
    SceneItem.node (mkNodeItem cell.vertex status colNumber rowNumber rowLen) ::
      buildNodesRow status rowNumber rowLen rest (colNumber + 1)

/-- Outer `matrix.forEach` of the node-building loop, carrying the row index. -/
def buildNodesAux (status : String) : LayoutGrid → Nat → List SceneItem
  | [], _ => []
  | row :: rest, rowNumber =>
    buildNodesRow status rowNumber row.length row 0 ++
      buildNodesAux status rest (rowNumber + 1)

/-- All node descriptors of the scene, in matrix order. -/
def buildNodes (m : LayoutGrid) (status : String) : List SceneItem :=
  buildNodesAux status m 0

/-- Edge descriptor for one edge of pipeline `key` at draw order `z`: the id
is derived from the pipeline key alone, and the source / target port
references are unconditional (`-right` on the source, `-left` on the target). -/
def mkEdgeItem (key : String) (e : Edge) (z : Nat) : EdgeItem :=
  { eid := "edge-" ++ key
    sourceCell := "node-" ++ e.inputVertexId
    sourcePort := "node-" ++ e.inputVertexId ++ "-right"
    targetCell := "node-" ++ e.targetVertexId
    targetPort := "node-" ++ e.targetVertexId ++ "-left"
    zIndex := z }

/-- Inner `for (const edge of edges)` of the edge-building loop: one pipeline,
incrementing the shared `zIndex` counter per edge. -/
def buildEdgesRow (key : String) : List Edge → Nat → List SceneItem
  | [], _ => []
  | e :: rest, z => SceneItem.edge (mkEdgeItem key e z) :: buildEdgesRow key rest (z + 1)

/-- Outer `for (const id of Object.keys(edgeMap))` of the edge-building loop,
threading the `zIndex` counter across pipelines. -/
def buildEdgesAux : PipelineEdges → Nat → List SceneItem
  | [], _ => []
  | (k, es) :: rest, z => buildEdgesRow k es z ++ buildEdgesAux rest (z + es.length)

/-- All edge descriptors of the scene, pipeline-then-array order, `zIndex`
starting at 0. -/
def buildEdges (edgeMap : PipelineEdges) : List SceneItem :=
  buildEdgesAux edgeMap 0

/-- The `init` function of `index.tsx` up to `graph.resetCells`: builds the
vertex list (`props?.job?.jobDag?.vertexInfoMap?.map(...) || []`, fully
optional-chained), lays it out, emits node descriptors, then reads
`props?.job.jobDag.pipelineEdges || {}` — the chain stops at `job`, so an
absent `jobDag` throws a `TypeError` there — and emits edge descriptors.
When `jobDag` is absent the vertex list is empty, so the connectivity
callback is never invoked before the throw. -/
def dagInit (job : Job) : Except Unit (List SceneItem) :=
  let points : List Vertex := (job.jobDag.bind JobDag.vertexInfoMap).getD []
  let isConn : Vertex → Vertex → Bool := fun s t =>
    match job.jobDag with
    | none => false
    | some dag => isConnected dag.pipelineEdges s t
  let m := buildMatrix isConn points
  let status := job.jobStatus.getD "default"
  let nodeItems := buildNodes m status
  match job.jobDag with
  | none => .error ()
  | some dag => .ok (nodeItems ++ buildEdges (dag.pipelineEdges.getD []))

/-- A JavaScript number as used by the metric cells: either `NaN` (the value
of `Number(undefined)`) or an integer metric value. -/
inductive JsNum where
  | nan : JsNum
  | int : Int → JsNum
deriving Repr, DecidableEq

/-- JavaScript `+` on metric values: any sum involving `NaN` is `NaN`. -/
def JsNum.add : JsNum → JsNum → JsNum
  | .int a, .int b => .int (a + b)
  | _, _ => .nan

/-- The lookup `Number(job.metrics?.[key][path])` of `detail.tsx`.  The
optional chain short-circuits only on `metrics` itself: an absent metrics
object yields `undefined` (so `NaN` after `Number`), but a present metrics
object lacking `key` evaluates `undefined[path]` and throws a `TypeError`.
A present inner table lacking `path` yields `NaN`. -/
def metricChain (metrics : Option Metrics) (key path : String) : Except Unit JsNum :=
  match metrics with
  | none => .ok .nan
  | some m =>
    match lookupStr m key with
    | none => .error ()
    | some tbl => .ok ((lookupStr tbl path).elim JsNum.nan JsNum.int)

/-- `sourceCell` of `detail.tsx`: for a `source` vertex, reduce
`row.tablePaths` summing the metric values under `key`; any other vertex
type returns 0 without reading the metrics. -/
def sourceCell (job : Job) (row : Vertex) (key : String) : Except Unit JsNum :=
  if row.vtype = "source" then
    row.tablePaths.foldlM
      (fun s path => (metricChain job.metrics key path).map (JsNum.add s))
      (JsNum.int 0)
  else .ok (JsNum.int 0)

/-- `sinkCell` of `detail.tsx`: same shape as `sourceCell`, gated on the
vertex type being `sink`. -/
def sinkCell (job : Job) (row : Vertex) (key : String) : Except Unit JsNum :=
  if row.vtype = "sink" then
    row.tablePaths.foldlM
      (fun s path => (metricChain job.metrics key path).map (JsNum.add s))
      (JsNum.int 0)
  else .ok (JsNum.int 0)

/-- One per-vertex status update consumed by `showNodeStatus`. -/
structure NodeStatusUpd where
  nodeId : Int
  status : String
deriving Repr, DecidableEq

/-- The displayed nodes as seen by `showNodeStatus`: node id → current
status. -/
abbrev NodeMap := List (Int × String)

/-- One update of the `status?.forEach` body:
`graph.getCellById("node-" + id)` followed by `setData` — a missing node is
`null`, whose `getData()` throws. -/
def setNodeStatus (nodes : NodeMap) (u : NodeStatusUpd) : Except Unit NodeMap :=
  if nodes.any (fun p => p.1 == u.nodeId) then
    .ok (nodes.map fun p => if p.1 == u.nodeId then (p.1, u.status) else p)
  else .error ()

/-- One tick of `showNodeStatus`.  The random draw
`Math.floor(Math.random() * statusList.length)` is abstracted as the index
`i` (always `< statusList.length` when the list is nonempty; any index on an
empty list reads `undefined`).  The result pairs the updated node map with
the scheduled delay: `some 5000` when `setTimeout(..., 5000)` re-arms the
loop, `none` when the early `return` fires. -/
def showNodeStatusStep (statusList : List (List NodeStatusUpd)) (i : Nat)
    (nodes : NodeMap) : Except Unit (NodeMap × Option Nat) :=
  match statusList[i]? with
  | none => .ok (nodes, none)
  | some snap => (snap.foldlM setNodeStatus nodes).map (fun ns => (ns, some 5000))

/-! Concrete inputs used by the claims: a linear chain A→B→C, a fan-out
A→B / A→C, and a metrics snapshot for the cell aggregation. -/

/-- Chain / fan-out vertex A (id 1). -/
def vA : Vertex := ⟨1, "A", "source", []⟩

/-- Chain / fan-out vertex B (id 2). -/
def vB : Vertex := ⟨2, "B", "transform", []⟩

/-- Chain / fan-out vertex C (id 3). -/
def vC : Vertex := ⟨3, "C", "sink", []⟩

/-- Edges of the linear chain A→B→C, in one pipeline. -/
def chainEdges : PipelineEdges := [("1", [⟨"1", "2"⟩, ⟨"2", "3"⟩])]

/-- Edges of the fan-out A→B, A→C, in one pipeline. -/
def fanEdges : PipelineEdges := [("1", [⟨"1", "2"⟩, ⟨"1", "3"⟩])]

/-- A running job holding the fan-out DAG. -/
def fanJob : Job := ⟨some ⟨some [vA, vB, vC], some fanEdges⟩, some "RUNNING", none⟩

/-- A source vertex with table paths `["a", "b"]`. -/
def srcV : Vertex := ⟨1, "S", "source", ["a", "b"]⟩

/-- A sink vertex used to check the symmetric zero cells. -/
def snkV : Vertex := ⟨2, "K", "sink", ["a"]⟩

/-- A job whose metrics map `TableSourceReceivedBytes` to `{a: 10, b: 20}`. -/
def jobM : Job :=
  ⟨none, none, some [("TableSourceReceivedBytes", [("a", 10), ("b", 20)])]⟩

/-- Flatten the pipeline map into (pipeline key, edge) pairs, preserving
pipeline-then-array order. -/
def pipelinePairs : PipelineEdges → List (String × Edge)
  | [] => []
  | (k, es) :: rest => es.map (fun e => (k, e)) ++ pipelinePairs rest

/-- Modelled from the spec: "Edges are emitted in pipeline-then-array order
with a monotonically increasing draw-order index" — one edge descriptor per
flattened pair, the draw order counting up by 1 from the given start. -/
def edgeSeq : List (String × Edge) → Nat → List SceneItem
  | [], _ => []
  | (k, e) :: rest, z => SceneItem.edge (mkEdgeItem k e z) :: edgeSeq rest (z + 1)

/-- Draw-order index of a scene item (0 for nodes, which never set one). -/
def sceneZ : SceneItem → Nat
  | .node _ => 0
  | .edge e => e.zIndex

/-! Helper lemmas about the scene builders. -/

/-- Every item of one row of the node-building loop is the node descriptor of
one cell of that row, at a column shifted by the starting index. -/
theorem mem_buildNodesRow {status : String} {rowNumber rowLen : Nat}
    {row : List PlacedPoint} {c0 : Nat} {it : SceneItem}
    (h : it ∈ buildNodesRow status rowNumber rowLen row c0) :
    ∃ j cell, row[j]? = some cell ∧
      it = .node (mkNodeItem cell.vertex status (c0 + j) rowNumber rowLen) := by
  induction row generalizing c0 with
  | nil => simp [buildNodesRow] at h
  | cons cell rest ih =>
    simp only [buildNodesRow, List.mem_cons] at h
    rcases h with h | h
    · exact ⟨0, cell, by simp, by simpa using h⟩
    · obtain ⟨j, cell2, hj, hit⟩ := ih h
      refine ⟨j + 1, cell2, by simpa using hj, ?_⟩
      have harith : c0 + 1 + j = c0 + (j + 1) := by omega
      rwa [harith] at hit

/-- Every item of the outer node-building loop comes from one row of the
matrix, with the row index shifted by the starting index. -/
theorem mem_buildNodesAux {status : String} {m : LayoutGrid} {r0 : Nat}
    {it : SceneItem} (h : it ∈ buildNodesAux status m r0) :
    ∃ i row, m[i]? = some row ∧
      it ∈ buildNodesRow status (r0 + i) row.length row 0 := by
  induction m generalizing r0 with
  | nil => simp [buildNodesAux] at h
  | cons row rest ih =>
    simp only [buildNodesAux, List.mem_append] at h
    rcases h with h | h
    · exact ⟨0, row, by simp, by simpa using h⟩
    · obtain ⟨i, row2, hi, hit⟩ := ih h
      refine ⟨i + 1, row2, by simpa using hi, ?_⟩
      have harith : r0 + 1 + i = r0 + (i + 1) := by omega
      rwa [harith] at hit

/-- Membership characterization of the port list of one node. -/
theorem mem_nodePorts {p : Port} {nid : String} {c len : Nat} :
    p ∈ nodePorts nid c len ↔
      (c ≠ 0 ∧ p = ⟨nid ++ "-left", "left"⟩) ∨
        (c ≠ len - 1 ∧ p = ⟨nid ++ "-right", "right"⟩) := by
  unfold nodePorts
  split_ifs with h1 h2 h2 <;> simp_all

/-- A node has a `left` port exactly when its column is not 0. -/
theorem nodePorts_left_iff (nid : String) (c len : Nat) :
    (∃ p ∈ nodePorts nid c len, p.group = "left") ↔ c ≠ 0 := by
  constructor
  · rintro ⟨p, hp, hg⟩
    rcases mem_nodePorts.1 hp with ⟨h, rfl⟩ | ⟨h, rfl⟩
    · exact h
    · simp at hg
  · intro h
    exact ⟨⟨nid ++ "-left", "left"⟩, mem_nodePorts.2 (Or.inl ⟨h, rfl⟩), rfl⟩

/-- A node has a `right` port exactly when its column is not the last of its
row. -/
theorem nodePorts_right_iff (nid : String) (c len : Nat) :
    (∃ p ∈ nodePorts nid c len, p.group = "right") ↔ c ≠ len - 1 := by
  constructor
  · rintro ⟨p, hp, hg⟩
    rcases mem_nodePorts.1 hp with ⟨h, rfl⟩ | ⟨h, rfl⟩
    · simp at hg
    · exact h
  · intro h
    exact ⟨⟨nid ++ "-right", "right"⟩, mem_nodePorts.2 (Or.inr ⟨h, rfl⟩), rfl⟩

/-- Every item of one pipeline's edge-building loop is the edge descriptor of
one edge of that pipeline. -/
theorem mem_buildEdgesRow {key : String} {es : List Edge} {z : Nat}
    {it : SceneItem} (h : it ∈ buildEdgesRow key es z) :
    ∃ e ∈ es, ∃ w, it = .edge (mkEdgeItem key e w) := by
  induction es generalizing z with
  | nil => simp [buildEdgesRow] at h
  | cons e rest ih =>
    simp only [buildEdgesRow, List.mem_cons] at h
    rcases h with h | h
    · exact ⟨e, by simp, z, h⟩
    · obtain ⟨e2, he2, w, hit⟩ := ih h
      exact ⟨e2, by simp [he2], w, hit⟩

/-- Every item emitted by the edge-building loop is the edge descriptor of
one edge of one pipeline of the map. -/
theorem mem_buildEdgesAux {em : PipelineEdges} {z : Nat} {it : SceneItem}
    (h : it ∈ buildEdgesAux em z) :
    ∃ kes ∈ em, ∃ e ∈ kes.2, ∃ w, it = .edge (mkEdgeItem kes.1 e w) := by
  induction em generalizing z with
  | nil => simp [buildEdgesAux] at h
  | cons kes rest ih =>
    obtain ⟨k, es⟩ := kes
    simp only [buildEdgesAux, List.mem_append] at h
    rcases h with h | h
    · obtain ⟨e, he, w, hit⟩ := mem_buildEdgesRow h
      exact ⟨(k, es), by simp, e, he, w, hit⟩
    · obtain ⟨kes2, hkes2, e, he, w, hit⟩ := ih h
      exact ⟨kes2, by simp [hkes2], e, he, w, hit⟩

/-- Splitting an edge sequence: draw-order indices continue past the prefix. -/
theorem edgeSeq_append (xs ys : List (String × Edge)) (z : Nat) :
    edgeSeq (xs ++ ys) z = edgeSeq xs z ++ edgeSeq ys (z + xs.length) := by
  induction xs generalizing z with
  | nil => simp [edgeSeq]
  | cons p rest ih =>
    obtain ⟨k, e⟩ := p
    have harith : z + (rest.length + 1) = z + 1 + rest.length := by omega
    simp only [List.cons_append, edgeSeq, List.append_eq, ih, List.length_cons, harith]

/-- One pipeline's loop emits exactly the edge sequence of its pairs. -/
theorem buildEdgesRow_eq (key : String) (es : List Edge) (z : Nat) :
    buildEdgesRow key es z = edgeSeq (es.map (fun e => (key, e))) z := by
  induction es generalizing z with
  | nil => simp [buildEdgesRow, edgeSeq]
  | cons e rest ih => simp [buildEdgesRow, edgeSeq, ih]

/-- The whole edge-building loop emits the edge sequence of the flattened
pipeline map. -/
theorem buildEdgesAux_eq (em : PipelineEdges) (z : Nat) :
    buildEdgesAux em z = edgeSeq (pipelinePairs em) z := by
  induction em generalizing z with
  | nil => simp [buildEdgesAux, pipelinePairs, edgeSeq]
  | cons kes rest ih =>
    obtain ⟨k, es⟩ := kes
    simp only [buildEdgesAux, pipelinePairs, edgeSeq_append, buildEdgesRow_eq, ih,
      List.length_map]

/-- The draw-order indices of an edge sequence count up by 1 from the start. -/
theorem map_sceneZ_edgeSeq (pairs : List (String × Edge)) (z : Nat) :
    (edgeSeq pairs z).map sceneZ = List.range' z pairs.length := by
  induction pairs generalizing z with
  | nil => simp [edgeSeq]
  | cons p rest ih =>
    obtain ⟨k, e⟩ := p
    simp [edgeSeq, sceneZ, mkEdgeItem, ih, List.range']

/-! Claim theorems. -/

/-- C1: `RowLayoutBuilder` on the linear chain of three vertices A, B, C
(edges A→B and B→C, input order A, B, C) produces a grid with exactly one
row whose contents are [A, B, C] in that order. -/
theorem c1_chain_single_row :
    matrixVertices (buildMatrix (isConnected (some chainEdges)) [vA, vB, vC]) =
      [[vA, vB, vC]] := by decide

/-- C2: `RowLayoutBuilder` on the fan-out A→B, A→C (input order A, B, C)
produces exactly two rows, [A, B] and [C]; and in general a vertex whose
found predecessor already has a successor is placed as a new singleton row
appended to the matrix, never as another column of an existing row. -/
theorem c2_fanout_rows :
    matrixVertices (buildMatrix (isConnected (some fanEdges)) [vA, vB, vC]) =
      [[vA, vB], [vC]] ∧
      ∀ (isConn : Vertex → Vertex → Bool) (m : LayoutGrid) (item : Vertex) (r c : Nat),
        findPrevious isConn m item = some (r, c) →
        ((m.getD r []).getD c ⟨item, false⟩).nextNonempty = true →
        placePoint isConn m item = m ++ [[⟨item, false⟩]] := by
  refine ⟨by decide, fun isConn m item r c hf hc => ?_⟩
  simp only [placePoint, hf, hc, if_true]

/-- C2 witness: placing C after the fan-out prefix [A, B] (where A already
has successor B) appends the new singleton row [C]. -/
theorem c2_fanout_rows_witness :
    placePoint (isConnected (some fanEdges))
        (buildMatrix (isConnected (some fanEdges)) [vA, vB]) vC =
      buildMatrix (isConnected (some fanEdges)) [vA, vB] ++ [[⟨vC, false⟩]] :=
  c2_fanout_rows.2 (isConnected (some fanEdges))
    (buildMatrix (isConnected (some fanEdges)) [vA, vB]) vC 0 0
    (by decide) (by decide)

/-- C3: `isConnected` returns true iff some edge of some pipeline of the map
has `inputVertexId` equal to the string form of the source's integer id and
`targetVertexId` equal to the string form of the target's integer id; an
absent edge map behaves as the empty map, so every pair yields false.  (The
embedding is a pure function, so the absence of side effects is by
construction; the `List.any` scan stops at the first match in scan order,
like the early `return true` of the source.) -/
theorem c3_isConnected_iff (em : Option PipelineEdges) (s t : Vertex) :
    (isConnected em s t = true ↔
      ∃ kes ∈ em.getD [], ∃ e ∈ kes.2,
        e.inputVertexId = toString s.vertexId ∧
          e.targetVertexId = toString t.vertexId) ∧
      isConnected none s t = false := by
  constructor
  · simp [isConnected, scanPipelines, edgeMatches, List.any_eq_true,
      Bool.and_eq_true, beq_iff_eq]
  · simp [isConnected, scanPipelines]

/-- C3 witness: the characterization applied to the chain edge map and the
pair (A, B), which the first edge connects. -/
theorem c3_isConnected_iff_witness :
    (isConnected (some chainEdges) vA vB = true ↔
      ∃ kes ∈ (some chainEdges).getD [], ∃ e ∈ kes.2,
        e.inputVertexId = toString vA.vertexId ∧
          e.targetVertexId = toString vB.vertexId) ∧
      isConnected none vA vB = false :=
  c3_isConnected_iff (some chainEdges) vA vB

/-- C4 (code bug): the spec requires every derived computation to treat
absent fields as empty collections and never throw, but two partially
optional-chained reads throw a `TypeError`: `init` reads
`props?.job.jobDag.pipelineEdges` (chain stops at `job`), so an empty-object
job throws; and `sourceCell` reads `job.metrics?.[key][path]` (chain stops at
`metrics`), so a present metrics object lacking the key throws for a source
row with a nonempty table-path list. -/
theorem c4_absent_fields_throw :
    dagInit ⟨none, none, none⟩ = .error () ∧
      sourceCell ⟨none, none, some []⟩ srcV "TableSourceReceivedBytes" =
        .error () :=
  ⟨rfl, rfl⟩

/-- C5 counterexample: a job whose vertex list is empty but whose pipeline
map holds one edge yields a scene containing one edge descriptor, so the
scene is not empty "regardless of the contents of the pipeline-edges
mapping". -/
theorem c5_counterexample :
    dagInit ⟨some ⟨some [], some [("1", [⟨"1", "2"⟩])]⟩, none, none⟩ =
      .ok [SceneItem.edge
        ⟨"edge-1", "node-1", "node-1-right", "node-2", "node-2-left", 0⟩] :=
  rfl

/-- C5 amended: for a job with a present `jobDag` whose vertex list is empty
or absent, `init` emits zero node descriptors, and its items are exactly the
edge descriptors of the pipeline-edges mapping (so the scene is empty iff
that mapping is empty or absent). -/
theorem c5_empty_vertices_scene (job : Job) (dag : JobDag)
    (h1 : job.jobDag = some dag) (h2 : dag.vertexInfoMap.getD [] = []) :
    dagInit job = .ok (buildEdges (dag.pipelineEdges.getD [])) ∧
      ∀ it ∈ buildEdges (dag.pipelineEdges.getD []), ∃ e, it = SceneItem.edge e := by
  constructor
  · simp [dagInit, h1, h2, buildMatrix, buildNodes, buildNodesAux]
  · intro it hit
    obtain ⟨kes, _, e, _, w, hit2⟩ :=
      mem_buildEdgesAux (by simpa [buildEdges] using hit)
    exact ⟨mkEdgeItem kes.1 e w, hit2⟩

/-- C5 witness: a job with an absent vertex list and the fan-out edge map
produces exactly the two fan-out edge descriptors and no nodes. -/
theorem c5_empty_vertices_scene_witness :
    dagInit ⟨some ⟨none, some fanEdges⟩, none, none⟩ =
      .ok (buildEdges ((some fanEdges).getD [])) ∧
      ∀ it ∈ buildEdges ((some fanEdges).getD []), ∃ e, it = SceneItem.edge e :=
  c5_empty_vertices_scene ⟨some ⟨none, some fanEdges⟩, none, none⟩
    ⟨none, some fanEdges⟩ rfl rfl

/-- C6 counterexample: two distinct edges of the same pipeline `p` both
receive the identifier `edge-p` — the identifier is derived from the
pipeline key alone, not from the position, so distinct edges do not receive
distinct identifiers. -/
theorem c6_counterexample :
    buildEdges [("p", [⟨"1", "2"⟩, ⟨"1", "3"⟩])] =
      [SceneItem.edge ⟨"edge-p", "node-1", "node-1-right", "node-2", "node-2-left", 0⟩,
        SceneItem.edge ⟨"edge-p", "node-1", "node-1-right", "node-3", "node-3-left", 1⟩] ∧
      (⟨"1", "2"⟩ : Edge) ≠ ⟨"1", "3"⟩ :=
  ⟨rfl, by decide⟩

/-- C6 amended: edge descriptors are emitted in pipeline-then-array order
with draw-order indices 0, 1, 2, … strictly increasing across the whole
emission, and each descriptor's identifier is `edge-` followed by its
pipeline key alone (so edges within one pipeline share an identifier). -/
theorem c6_edge_order_zindex (em : PipelineEdges) :
    buildEdges em = edgeSeq (pipelinePairs em) 0 ∧
      (buildEdges em).map sceneZ = List.range' 0 (pipelinePairs em).length ∧
      ∀ it ∈ buildEdges em, ∃ kes ∈ em, ∃ e ∈ kes.2, ∃ w,
        it = SceneItem.edge (mkEdgeItem kes.1 e w) := by
  refine ⟨buildEdgesAux_eq em 0, ?_, ?_⟩
  · rw [buildEdges, buildEdgesAux_eq]
    exact map_sceneZ_edgeSeq _ 0
  · intro it hit
    exact mem_buildEdgesAux (by simpa [buildEdges] using hit)

/-- C6 witness: the order / draw-order / identifier characterization at the
fan-out edge map. -/
theorem c6_edge_order_zindex_witness :
    buildEdges fanEdges = edgeSeq (pipelinePairs fanEdges) 0 ∧
      (buildEdges fanEdges).map sceneZ = List.range' 0 (pipelinePairs fanEdges).length ∧
      ∀ it ∈ buildEdges fanEdges, ∃ kes ∈ fanEdges, ∃ e ∈ kes.2, ∃ w,
        it = SceneItem.edge (mkEdgeItem kes.1 e w) :=
  c6_edge_order_zindex fanEdges

/-- C7: every node descriptor comes from a cell of the layout grid, at pixel
position (column × 540, row × 140), with a `left` port exactly when its
column is not 0 and a `right` port exactly when its column is not the last
of its row. -/
theorem c7_ports_positions (m : LayoutGrid) (status : String) (it : NodeItem)
    (h : SceneItem.node it ∈ buildNodes m status) :
    ∃ r c row cell, m[r]? = some row ∧ row[c]? = some cell ∧
      it = mkNodeItem cell.vertex status c r row.length ∧
      it.x = c * offsetX ∧ it.y = r * offsetY ∧
      ((∃ p ∈ it.ports, p.group = "left") ↔ c ≠ 0) ∧
      ((∃ p ∈ it.ports, p.group = "right") ↔ c ≠ row.length - 1) := by
  obtain ⟨i, row, hi, hrow⟩ := mem_buildNodesAux (by simpa [buildNodes] using h)
  obtain ⟨j, cell, hj, hit⟩ := mem_buildNodesRow hrow
  simp only [Nat.zero_add] at hit
  injection hit with hx
  refine ⟨i, j, row, cell, hi, hj, hx, ?_, ?_, ?_, ?_⟩
  · rw [hx]; rfl
  · rw [hx]; rfl
  · rw [hx]
    exact nodePorts_left_iff ("node-" ++ toString cell.vertex.vertexId) j row.length
  · rw [hx]
    exact nodePorts_right_iff ("node-" ++ toString cell.vertex.vertexId) j row.length

/-- C7 witness: the node descriptor of B in the fan-out layout (row 0,
column 1 of the row [A, B]) satisfies the position / port characterization. -/
theorem c7_ports_positions_witness :
    ∃ r c row cell,
      (buildMatrix (isConnected (some fanEdges)) [vA, vB, vC])[r]? = some row ∧
      row[c]? = some cell ∧
      mkNodeItem vB "RUNNING" 1 0 2 = mkNodeItem cell.vertex "RUNNING" c r row.length ∧
      (mkNodeItem vB "RUNNING" 1 0 2).x = c * offsetX ∧
      (mkNodeItem vB "RUNNING" 1 0 2).y = r * offsetY ∧
      ((∃ p ∈ (mkNodeItem vB "RUNNING" 1 0 2).ports, p.group = "left") ↔ c ≠ 0) ∧
      ((∃ p ∈ (mkNodeItem vB "RUNNING" 1 0 2).ports, p.group = "right") ↔
        c ≠ row.length - 1) :=
  c7_ports_positions (buildMatrix (isConnected (some fanEdges)) [vA, vB, vC])
    "RUNNING" (mkNodeItem vB "RUNNING" 1 0 2) (by decide)

/-- C8: for the source vertex with table paths `["a", "b"]` and the metrics
snapshot `{TableSourceReceivedBytes: {a: 10, b: 20}}`, the received-bytes
cell is 30; every sink-metric cell of that source vertex is 0; and
symmetrically every source-metric cell of any sink vertex is 0. -/
theorem c8_metrics_cells :
    sourceCell jobM srcV "TableSourceReceivedBytes" = .ok (.int 30) ∧
      (∀ key, sinkCell jobM srcV key = .ok (.int 0)) ∧
      ∀ (job : Job) (v : Vertex) (key : String), v.vtype = "sink" →
        sourceCell job v key = .ok (.int 0) := by
  refine ⟨rfl, fun key => ?_, fun job v key hv => ?_⟩
  · simp only [sinkCell]
    rw [if_neg (by decide)]
  · simp only [sourceCell]
    rw [hv, if_neg (by decide)]

/-- C8 witness: the source-metric cell of a concrete sink vertex is 0. -/
theorem c8_metrics_cells_witness :
    sourceCell jobM snkV "TableSourceReceivedBytes" = .ok (.int 0) :=
  c8_metrics_cells.2.2 jobM snkV "TableSourceReceivedBytes" rfl

/-- C9: one tick of `showNodeStatus` on an empty snapshot sequence leaves
every node untouched and schedules nothing (the early `return` fires before
`setTimeout`); on a sequence holding the picked index, it applies that
snapshot's per-vertex statuses and re-arms the loop at the fixed 5000 ms
delay. -/
theorem c9_animator_step :
    (∀ (i : Nat) (nodes : NodeMap), showNodeStatusStep [] i nodes = .ok (nodes, none)) ∧
      ∀ (statusList : List (List NodeStatusUpd)) (i : Nat)
        (nodes nodes2 : NodeMap) (snap : List NodeStatusUpd),
        statusList[i]? = some snap →
        snap.foldlM setNodeStatus nodes = .ok nodes2 →
        showNodeStatusStep statusList i nodes = .ok (nodes2, some 5000) := by
  constructor
  · intro i nodes
    simp [showNodeStatusStep]
  · intro sl i nodes nodes2 snap hsnap hfold
    simp [showNodeStatusStep, hsnap, hfold, Except.map]

/-- C9 witness: a one-snapshot sequence sets node 1 to FINISHED and re-arms
the loop at 5000 ms. -/
theorem c9_animator_step_witness :
    showNodeStatusStep [[⟨1, "FINISHED"⟩]] 0 [(1, "RUNNING")] =
      .ok ([(1, "FINISHED")], some 5000) :=
  c9_animator_step.2 [[⟨1, "FINISHED"⟩]] 0 [(1, "RUNNING")] [(1, "FINISHED")]
    [⟨1, "FINISHED"⟩] rfl rfl

/-- C10: every emitted edge descriptor references the source's `-right` port
and the target's `-left` port unconditionally; in the fan-out scene the
second successor C sits alone in its row with zero ports, yet an edge
descriptor still targets the nonexistent port `node-3-left`. -/
theorem c10_edge_ports_unconditional :
    (∀ (em : PipelineEdges) (it : EdgeItem), SceneItem.edge it ∈ buildEdges em →
      ∃ kes ∈ em, ∃ e ∈ kes.2,
        it.sourceCell = "node-" ++ e.inputVertexId ∧
        it.sourcePort = "node-" ++ e.inputVertexId ++ "-right" ∧
        it.targetCell = "node-" ++ e.targetVertexId ∧
        it.targetPort = "node-" ++ e.targetVertexId ++ "-left") ∧
      dagInit fanJob = .ok
        [.node ⟨"node-1", 0, 0, 1, "A", "RUNNING", [⟨"node-1-right", "right"⟩]⟩,
          .node ⟨"node-2", 540, 0, 2, "B", "RUNNING", [⟨"node-2-left", "left"⟩]⟩,
          .node ⟨"node-3", 0, 140, 3, "C", "RUNNING", []⟩,
          .edge ⟨"edge-1", "node-1", "node-1-right", "node-2", "node-2-left", 0⟩,
          .edge ⟨"edge-1", "node-1", "node-1-right", "node-3", "node-3-left", 1⟩] := by
  constructor
  · intro em it hit
    obtain ⟨kes, hkes, e, he, w, hit2⟩ :=
      mem_buildEdgesAux (by simpa [buildEdges] using hit)
    injection hit2 with hx
    exact ⟨kes, hkes, e, he, by rw [hx]; rfl, by rw [hx]; rfl, by rw [hx]; rfl,
      by rw [hx]; rfl⟩
  · rfl

/-- C10 witness: the fan-out edge descriptor targeting C references C's
`-left` port even though C's node has no ports. -/
theorem c10_edge_ports_unconditional_witness :
    ∃ kes ∈ fanEdges, ∃ e ∈ kes.2,
      (mkEdgeItem "1" ⟨"1", "3"⟩ 1).sourceCell = "node-" ++ e.inputVertexId ∧
      (mkEdgeItem "1" ⟨"1", "3"⟩ 1).sourcePort = "node-" ++ e.inputVertexId ++ "-right" ∧
      (mkEdgeItem "1" ⟨"1", "3"⟩ 1).targetCell = "node-" ++ e.targetVertexId ∧
      (mkEdgeItem "1" ⟨"1", "3"⟩ 1).targetPort = "node-" ++ e.targetVertexId ++ "-left" :=
  c10_edge_ports_unconditional.1 fanEdges (mkEdgeItem "1" ⟨"1", "3"⟩ 1) (by decide)
